import Mathlib

/-!
Verification development for the `memories` rag-service repository.

The repository's core is a multi-tenant retrieval pipeline
(`app/routers/rag_agent.py`, `app/services/pinecone_service.py`,
`app/services/embedding_service.py`, `app/services/llm_service.py`).
This file gives a shallow embedding of that pipeline in Lean:

- Python strings stay `String`; Python floats are modelled as `ℚ`
  (the pipeline only averages, divides and rounds similarity scores);
- dict-shaped metadata becomes the record `Metadata` (the ingestion path
  always sets every key it later reads, so a total record is faithful);
- the external capabilities (sentence splitter, embedding model, Pinecone
  index, Groq LLM) are parameters of the embedded pipeline functions;
  the Pinecone index itself, which is outside the repository, is modelled
  from the spec's VectorStore contract (`query_model`, see its comment);
- fallible paths return `Except` and the store's mutable index becomes
  explicit state passing (`StoreState`); the external calls a request
  performs are recorded in an `ExtCall` trace.
-/

/-- Python whitespace as used by `str.strip` / `str.split`:
space, tab, newline, carriage return, vertical tab, form feed. -/
def pyIsSpace (c : Char) : Bool :=
  c.toNat = 32 || c.toNat = 9 || c.toNat = 10 || c.toNat = 13 ||
  c.toNat = 11 || c.toNat = 12

/-- Python `str.strip()`: drop leading and trailing whitespace. -/
def pyStrip (s : String) : String :=
  ⟨((s.data.dropWhile pyIsSpace).reverse.dropWhile pyIsSpace).reverse⟩

/-- Helper for Python `str.split()` with no argument: split on whitespace
runs, discarding empty pieces; `acc` holds the current word reversed. -/
def pyWordsAux : List Char → List Char → List (List Char)
  | acc, [] => if acc = [] then [] else [acc.reverse]
  | acc, c :: cs =>
    if pyIsSpace c then
      if acc = [] then pyWordsAux [] cs else acc.reverse :: pyWordsAux [] cs
    else
      pyWordsAux (c :: acc) cs

/-- Python `len(s.split())`, the `word_count` metadata field
(`rag_agent.py:92`). -/
def pyWordCount (s : String) : Nat :=
  (pyWordsAux [] s.data).length

/-- The namespace `store_documents` stores under
(`pinecone_service.py:389`): `user_<user_id>_<email_id>`. -/
def storeNamespace (user_id email_id : String) : String :=
  "user_" ++ user_id ++ "_" ++ email_id

/-- The namespace `retrieve_rag_data` queries
(`rag_agent.py:174`): `user_<userId>_<email>`. -/
def retrieveNamespace (userId email : String) : String :=
  "user_" ++ userId ++ "_" ++ email

/-- The namespace `search_documents` queries
(`pinecone_service.py:465`): `user_<user_id>`, with no document part. -/
def searchNamespace (user_id : String) : String :=
  "user_" ++ user_id

/-- The metadata mapping attached to every stored vector: the keys
`rag_agent.py:83-93` writes into `extra_info` plus the keys
`store_documents` adds or overwrites (`pinecone_service.py:398-401`). -/
structure Metadata where
  user_id : String
  email_id : String
  title : String
  chunk_index : Nat
  total_chunks : Nat
  timestamp : String
  source_type : String
  chunk_length : Nat
  word_count : Nat
  text : String
deriving DecidableEq

/-- A Pinecone vector as `pinecone_service.py:24-28` shapes it. -/
structure PineconeVector where
  id : String
  values : List ℚ
  metadata : Metadata
deriving DecidableEq

/-- The index's contents: every upserted (namespace, vector) pair in upsert
order. Id-level overwrite inside one namespace is abstracted away; none of
the verified properties depend on it. -/
abbrev StoreState := List (String × PineconeVector)

/-- A llama-index `Document` as built at `rag_agent.py:81-94`:
chunk text plus its `extra_info`. -/
structure PipelineDoc where
  text : String
  meta : Metadata
deriving DecidableEq

/-- A node produced by `get_nodes_from_documents` (`rag_agent.py:98`):
an id, the node text, and the metadata inherited from its document. -/
structure PipelineNode where
  node_id : String
  text : String
  meta : Metadata
deriving DecidableEq

/-- A query match as `query_vectors` formats it
(`pinecone_service.py:248-260`). -/
structure QueryMatch where
  id : String
  score : ℚ
  metadata : Metadata
deriving DecidableEq

/-- Batch slicing helper with a fuel argument: `batchesGo bs fuel l`
emits `l.take bs` and recurses on `l.drop bs`, mirroring
`for i in range(0, len(vectors), batch_size)` at
`pinecone_service.py:169-170`. The fuel (instantiated with `l.length`)
only makes the recursion structural. -/
def batchesGo (bs : Nat) : Nat → List α → List (List α)
  | _, [] => []
  | 0, _ :: _ => []
  | fuel + 1, a :: t => ((a :: t).take bs) :: batchesGo bs fuel (t.drop (bs - 1))

/-- The consecutive slices `vectors[i:i+batch_size]` of the upsert loop
(`pinecone_service.py:169-170`). -/
def batches (bs : Nat) (l : List α) : List (List α) :=
  batchesGo bs l.length l

/-- One failure-injection point for the external index: the `k`-th call to
`index.upsert` raises. `upsertLoop failAt ns total k st bs` embeds the
batch loop of `upsert_vectors` (`pinecone_service.py:166-188`): `total`
accumulates `total_upserted`, `k` counts the calls made so far, and a
successful call appends the batch to the index state. On a raised error
the loop stops and the state keeps everything already upserted. -/
def upsertLoop (failAt : Option Nat) (ns : String) :
    Nat → Nat → StoreState → List (List PineconeVector) →
    Except String Nat × StoreState
  | total, _, st, [] => (.ok total, st)
  | total, k, st, b :: bs =>
    if failAt = some k then (.error ("upsert failed"), st)
    else upsertLoop failAt ns (total + b.length) (k + 1)
      (st ++ b.map (fun v => (ns, v))) bs

/-- `PineconeService.upsert_vectors` (`pinecone_service.py:120-192`):
slice into batches of `batch_size`, upsert each in order, return the
total count; a store error aborts the remaining batches and is
re-raised, with no rollback of the batches already upserted. -/
def upsert_vectors (failAt : Option Nat) (vectors : List PineconeVector)
    (ns : String) (batch_size : Nat) (st : StoreState) :
    Except String Nat × StoreState :=
  upsertLoop failAt ns 0 0 st (batches batch_size vectors)

/-- Whether a stored metadata mapping passes the query's metadata filter:
`none` means the corresponding key is absent from `filter_metadata`
(`query_vectors` takes `filter_metadata: Optional[Dict]`,
`pinecone_service.py:198`; `search_documents` adds an `email_id` key when
given one, `pinecone_service.py:468-470`). -/
def matchesFilter (md : Metadata) (fu fe : Option String) : Bool :=
  (match fu with | none => true | some u => md.user_id == u) &&
  (match fe with | none => true | some e => md.email_id == e)

/-- Modelled from the spec: the external VectorStore query contract (§6,
"query(namespace, vector, topK, metadataFilter, includeMetadata) ->
ordered matches"): the Pinecone index itself is outside the repository,
so its query is modelled as: keep the vectors of the queried namespace
that pass the metadata filter, order them by descending score under the
similarity `f` the caller's query vector induces, and return at most
`topK`. This is what `query_vectors` (`pinecone_service.py:194-264`)
receives back and reformats. -/
def query_model (f : PineconeVector → ℚ) (st : StoreState) (ns : String)
    (fu fe : Option String) (topK : Nat) : List QueryMatch :=
  let hits := st.filter (fun p => p.1 == ns && matchesFilter p.2.metadata fu fe)
  let ms := hits.map (fun p => { id := p.2.id, score := f p.2, metadata := p.2.metadata })
  (List.insertionSort (fun a b : QueryMatch => b.score ≤ a.score) ms).take topK

/-- The vector built for one (node, embedding) pair inside
`store_documents` (`pinecone_service.py:393-407`): the node's metadata
with the `text`, `user_id`, `email_id` and `title` keys added or
overwritten. -/
def toPineconeVector (user_id email_id title : String)
    (pe : PipelineNode × List ℚ) : PineconeVector :=
  let md := { pe.1.meta with
              text := pe.1.text
              user_id := user_id
              email_id := email_id
              title := title }
  { id := pe.1.node_id, values := pe.2, metadata := md }

/-- `PineconeService.store_documents` (`pinecone_service.py:346-427`):
derive the namespace from `(user_id, email_id)`, zip nodes with their
embeddings, add or overwrite the `text`, `user_id`, `email_id` and
`title` metadata keys (`pinecone_service.py:398-401`), and upsert with
batch size 100. Returns `(vectors_stored, namespace)`. -/
def store_documents (failAt : Option Nat) (nodes : List PipelineNode)
    (embeddings : List (List ℚ)) (user_id email_id title : String)
    (st : StoreState) : Except String (Nat × String) × StoreState :=
  let ns := storeNamespace user_id email_id
  let pinecone_vectors :=
    (nodes.zip embeddings).map (toPineconeVector user_id email_id title)
  match upsert_vectors failAt pinecone_vectors ns 100 st with
  | (.ok cnt, st2) => (.ok (cnt, ns), st2)
  | (.error e, st2) => (.error e, st2)

/-- `PineconeService.search_documents` (`pinecone_service.py:429-487`):
query under the user-only namespace `user_<user_id>` with the metadata
filter `user_id` (plus `email_id` when given). -/
def search_documents (f : PineconeVector → ℚ) (st : StoreState)
    (user_id : String) (top_k : Nat) (email_id : Option String) :
    List QueryMatch :=
  query_model f st (searchNamespace user_id) (some user_id) email_id top_k

/-- An external capability call made while serving one request: chunking
(the sentence splitter), batch or single embedding, the index upsert, the
index query, and the LLM generation. -/
inductive ExtCall where
  | chunk (text : String)
  | embedMany (texts : List String)
  | embedOne (text : String)
  | upsert (ns : String)
  | storeQuery (ns : String) (filterUserId : Option String) (topK : Nat)
  | generate (query : String)
deriving DecidableEq

/-- Request body of `POST /rag/store` (`rag_agent.py:25-29`). -/
structure RagStoreRequest where
  userId : String
  email : String
  title : String
  content : String
deriving DecidableEq

/-- Response body of `POST /rag/store` (`rag_agent.py:31-33`). -/
structure RagStoreResponse where
  documentId : String
  indexed : Bool
deriving DecidableEq

/-- Request body of `POST /rag/query` (`rag_agent.py:35-39`);
`topK` defaults to 10 at the HTTP layer. -/
structure RagRetrieveRequest where
  userId : String
  email : String
  query : String
  topK : Nat
deriving DecidableEq

/-- Response body of `POST /rag/query` (`rag_agent.py:41-43`). -/
structure RagRetrieveResponse where
  answer : String
  score : ℚ
deriving DecidableEq

/-- An HTTPException as the router raises it: status code and detail. -/
abbrev HErr := Nat × String

/-- The `extra_info` built for the chunk at position `idx` of `total`
chunks (`rag_agent.py:80-94`); the `text` metadata key is only added
later by `store_documents`. -/
def chunkMeta (req : RagStoreRequest) (timestamp : String)
    (total idx : Nat) (chunk : String) : Metadata :=
  { user_id := req.userId
    email_id := req.email
    title := req.title
    chunk_index := idx
    total_chunks := total
    timestamp := timestamp
    source_type := "email"
    chunk_length := chunk.length
    word_count := pyWordCount chunk
    text := "" }

/-- The `for idx, chunk in enumerate(chunks)` loop of `rag_agent.py:80-95`:
one `PipelineDoc` per chunk, carrying its 0-based index and the shared
total count. -/
def buildDocs (req : RagStoreRequest) (timestamp : String) (total : Nat) :
    Nat → List String → List PipelineDoc
  | _, [] => []
  | idx, c :: cs =>
    ⟨c, chunkMeta req timestamp total idx c⟩ ::
      buildDocs req timestamp total (idx + 1) cs

/-- `splitter.get_nodes_from_documents(nodes)` (`rag_agent.py:98`): each
document is re-split into nodes by the same splitter (`resplit`, kept
abstract), every node inheriting its document's metadata; node ids are
generated opaquely (`mkId`, kept abstract). -/
def get_nodes_from_documents (resplit : String → List String)
    (mkId : String → String) (docs : List PipelineDoc) : List PipelineNode :=
  (docs.map (fun d =>
    (resplit d.text).map (fun t => { node_id := mkId t, text := t, meta := d.meta }))).flatten

/-- The `/rag/store` handler `store_rag_data` (`rag_agent.py:47-139`).
Parameters stand for the external capabilities: `split` is
`SentenceSplitter.split_text` with the fixed policy (chunk size 1024,
overlap 150), `resplit`/`mkId` are `get_nodes_from_documents`, `embedMany`
is `embed_texts_while_storing`, and `failAt` injects an index failure.
Returns the HTTP result, the index state after the call, and the trace of
external calls made. An empty or whitespace-only `content` is rejected
with a 400 before any external call; a store failure surfaces as a 500
wrapping the cause. -/
def store_rag_data (split resplit : String → List String)
    (mkId : String → String) (embedMany : List String → List (List ℚ))
    (failAt : Option Nat) (timestamp : String) (req : RagStoreRequest)
    (st : StoreState) :
    Except HErr RagStoreResponse × StoreState × List ExtCall :=
  if req.content = "" ∨ pyStrip req.content = "" then
    (.error (400, "Content cannot be empty"), st, [])
  else
    let chunks := split req.content
    let docs := buildDocs req timestamp chunks.length 0 chunks
    let nodes := get_nodes_from_documents resplit mkId docs
    let node_texts := nodes.map (fun n => n.text)
    let embeddings := embedMany node_texts
    let calls := [ExtCall.chunk req.content, ExtCall.embedMany node_texts,
                  ExtCall.upsert (storeNamespace req.userId req.email)]
    match store_documents failAt nodes embeddings req.userId req.email req.title st with
    | (.ok _, st2) =>
      (.ok { documentId := req.email, indexed := true }, st2, calls)
    | (.error e, st2) =>
      (.error (500, "Failed to store data: " ++ e), st2, calls)

/-- Round an integer-scaled value to the nearest integer, ties to even:
the rounding Python's built-in `round` uses. -/
def roundHalfToEven (q : ℚ) : ℤ :=
  let f : ℤ := ⌊q⌋
  let r : ℚ := q - (f : ℚ)
  if r < 1 / 2 then f
  else if 1 / 2 < r then f + 1
  else if f % 2 = 0 then f else f + 1

/-- Python `round(x, 4)` (`rag_agent.py:228`), over the rational model of
the score arithmetic. -/
def pyRound4 (q : ℚ) : ℚ :=
  (roundHalfToEven (q * 10000) : ℚ) / 10000

/-- One entry of the `context_chunks` list the router builds from a match
(`rag_agent.py:199-209`). -/
structure ContextChunk where
  score : ℚ
  title : String
  text : String
  timestamp : String
  email_id : String
  chunk_index : Nat
deriving DecidableEq

/-- What `LLMService.generate_response` returns, reduced to the fields the
router reads (`llm_service.py:124-130`, `rag_agent.py:220-227`). -/
structure LLMResponse where
  answer : String
  total_tokens : Nat
deriving DecidableEq

/-- The `context_chunks` list built at `rag_agent.py:199-209`: one entry
per match, in order, copying the score and the metadata fields. -/
def contextChunks (ms : List QueryMatch) : List ContextChunk :=
  ms.map (fun m =>
    { score := m.score
      title := m.metadata.title
      text := m.metadata.text
      timestamp := m.metadata.timestamp
      email_id := m.metadata.email_id
      chunk_index := m.metadata.chunk_index })

/-- The average at `rag_agent.py:224`:
`sum(chunk.score)/len(context_chunks) if context_chunks else 0.0`. -/
def averageScore (cs : List ContextChunk) : ℚ :=
  if cs = [] then 0 else (cs.map (fun c => c.score)).sum / (cs.length : ℚ)

/-- The canned answer returned when the query finds nothing
(`rag_agent.py:194`). -/
def noInfoAnswer : String :=
  "I couldn\x27t find any relevant information in your documents to answer this question."

/-- The matches the `/rag/query` handler receives back from the store
(`rag_agent.py:166-187`): the query text is embedded (`embedOne`), the
similarity it induces on stored vectors is `sim` of that query vector,
and the store is queried under `user_<userId>_<email>` with the metadata
filter `{user_id: userId}` and `top_k = topK`. -/
def retrieveMatches (sim : List ℚ → PineconeVector → ℚ)
    (embedOne : String → List ℚ) (st : StoreState)
    (req : RagRetrieveRequest) : List QueryMatch :=
  query_model (sim (embedOne req.query)) st
    (retrieveNamespace req.userId req.email) (some req.userId) none req.topK

/-- The `/rag/query` handler `retrieve_rag_data` (`rag_agent.py:143-237`).
An empty or whitespace-only query is rejected with a 400 before any
external call; zero matches return the canned answer with score 0 and no
LLM call; otherwise the LLM answer is returned with the rounded average
match score. The second component is the trace of external calls made. -/
def retrieve_rag_data (embedOne : String → List ℚ)
    (sim : List ℚ → PineconeVector → ℚ)
    (generate : String → List ContextChunk → LLMResponse)
    (req : RagRetrieveRequest) (st : StoreState) :
    Except HErr RagRetrieveResponse × List ExtCall :=
  if req.query = "" ∨ pyStrip req.query = "" then
    (.error (400, "Query cannot be empty"), [])
  else
    let ns := retrieveNamespace req.userId req.email
    let results := retrieveMatches sim embedOne st req
    let baseCalls := [ExtCall.embedOne req.query,
                      ExtCall.storeQuery ns (some req.userId) req.topK]
    if results = [] then
      (.ok { answer := noInfoAnswer, score := 0 }, baseCalls)
    else
      let cs := contextChunks results
      let llm := generate req.query cs
      (.ok { answer := llm.answer, score := pyRound4 (averageScore cs) },
       baseCalls ++ [ExtCall.generate req.query])

/-- The index state after one ingestion call with no store failure:
projection of `store_rag_data`, named for readability of the isolation
theorems. -/
def stateAfterIngest (split resplit : String → List String)
    (mkId : String → String) (embedMany : List String → List (List ℚ))
    (timestamp : String) (req : RagStoreRequest) (st : StoreState) :
    StoreState :=
  (store_rag_data split resplit mkId embedMany none timestamp req st).2.1

/-- Shared state of the lazy singleton getters
(`embedding_service.py:210-233`, `pinecone_service.py:490-510`,
`llm_service.py:235-255`): the module-level `_instance` global (`glob`,
constructed instances are labelled by construction order), the count of
constructions performed, and each thread's recorded outcome of its
`_instance is None` check (`none` = not yet checked). -/
structure RaceState where
  glob : Option Nat
  created : Nat
  t1 : Option Bool
  t2 : Option Bool
deriving DecidableEq

/-- One interleaved step of two threads running the getter body
`if _instance is None: _instance = Ctor()`. The source takes no lock, so
the check and the assignment are separate atomic steps that may
interleave; `createN` constructs only if thread N's check observed
`None`. -/
inductive RaceAction where
  | check1
  | check2
  | create1
  | create2
deriving DecidableEq

/-- Transition function of the unguarded check-then-create. -/
def raceStep : RaceState → RaceAction → RaceState
  | s, .check1 => { s with t1 := some s.glob.isNone }
  | s, .check2 => { s with t2 := some s.glob.isNone }
  | s, .create1 =>
    if s.t1 = some true then
      { s with glob := some s.created, created := s.created + 1 }
    else s
  | s, .create2 =>
    if s.t2 = some true then
      { s with glob := some s.created, created := s.created + 1 }
    else s

/-- Run a schedule of interleaved steps from a state. -/
def runRace (s : RaceState) (as : List RaceAction) : RaceState :=
  as.foldl raceStep s

/-- The process-start state: no instance constructed, no check made. -/
def raceStart : RaceState :=
  { glob := none, created := 0, t1 := none, t2 := none }

/-! Concrete capability stand-ins used by the closed witness and
counterexample theorems below. -/

/-- A splitter that returns the whole text as one chunk (what the real
splitter does for text shorter than the chunk size). -/
def splitWhole : String → List String := fun s => [s]

/-- A node id generator: the node's own text. -/
def idOfText : String → String := fun t => t

/-- An embedding stand-in: the constant vector `[1]` for every text. -/
def embedConst : List String → List (List ℚ) := fun ts => ts.map (fun _ => [1])

/-- A single-text embedding stand-in. -/
def embedOne1 : String → List ℚ := fun _ => [1]

/-- A similarity stand-in: every stored vector scores 1. -/
def simOne : List ℚ → PineconeVector → ℚ := fun _ _ => 1

/-- A score function stand-in for direct `query_model` calls. -/
def scoreOne : PineconeVector → ℚ := fun _ => 1

/-- An LLM stand-in with a fixed answer. -/
def genFix : String → List ContextChunk → LLMResponse := fun _ _ => ⟨"ans", 7⟩

/-- The metadata the pipeline attaches when ingesting the one-chunk
document of `reqFix` (used by witnesses). -/
def metaFix : Metadata :=
  { user_id := "u"
    email_id := "d"
    title := "t"
    chunk_index := 0
    total_chunks := 1
    timestamp := "ts"
    source_type := "email"
    chunk_length := 5
    word_count := 1
    text := "hello" }

/-- The stored vector the fixture ingestion produces. -/
def vFix : PineconeVector := { id := "hello", values := [1], metadata := metaFix }

/-- Fixture store request: tenant `u`, document `d`, content `hello`. -/
def reqFix : RagStoreRequest := { userId := "u", email := "d", title := "t", content := "hello" }

/-- A record as tenant `a_b` with document `c` stores it, for the
namespace-collision theorems. -/
def vColl : PineconeVector :=
  { id := "x", values := [1],
    metadata := { metaFix with user_id := "a_b", email_id := "c" } }

/-- Decidable equality for `Except`, for evaluating handler results at
concrete inputs. -/
def exceptDecEq [DecidableEq ε] [DecidableEq α] :
    (a b : Except ε α) → Decidable (a = b)
  | .ok a, .ok b =>
    if h : a = b then .isTrue (by rw [h]) else .isFalse (by simp [h])
  | .ok _, .error _ => .isFalse (by simp)
  | .error _, .ok _ => .isFalse (by simp)
  | .error a, .error b =>
    if h : a = b then .isTrue (by rw [h]) else .isFalse (by simp [h])

instance [DecidableEq ε] [DecidableEq α] : DecidableEq (Except ε α) :=
  exceptDecEq

/-- A context chunk carrying only a score, for stating the concrete
score-aggregation example. -/
def chunkOfScore (q : ℚ) : ContextChunk :=
  { score := q, title := "", text := "", timestamp := "", email_id := "", chunk_index := 0 }

/-! ## Helper lemmas -/

theorem pyStrip_empty : pyStrip ("") = "" := rfl

/-- The router's emptiness check `not content or len(content.strip()) == 0`
is equivalent to the strip being empty. -/
theorem blank_or_iff (s : String) :
    (s = "" ∨ pyStrip s = "") ↔ pyStrip s = "" := by
  constructor
  · rintro (h | h)
    · rw [h]; rfl
    · exact h
  · exact Or.inr

/-- Flattening the batch slices recovers the vector list. -/
theorem batchesGo_flatten {α : Type} (bs : Nat) (h1 : 1 ≤ bs) :
    ∀ (fuel : Nat) (l : List α), l.length ≤ fuel →
      (batchesGo bs fuel l).flatten = l := by
  intro fuel
  induction fuel with
  | zero =>
    intro l hl
    have : l = [] := List.eq_nil_of_length_eq_zero (Nat.le_zero.mp hl)
    subst this
    rfl
  | succ n ih =>
    intro l hl
    match l with
    | [] => rfl
    | a :: t =>
      obtain ⟨m, rfl⟩ : ∃ m, bs = m + 1 := ⟨bs - 1, by omega⟩
      have hlen : (t.drop m).length ≤ n := by
        simp only [List.length_drop]
        simp only [List.length_cons] at hl
        omega
      simp only [batchesGo, Nat.add_sub_cancel]
      rw [List.flatten_cons, ih (t.drop m) hlen, List.take_succ_cons,
        List.cons_append, List.take_append_drop]

/-- Flattening `batches` recovers the vector list. -/
theorem batches_flatten {α : Type} (bs : Nat) (h1 : 1 ≤ bs) (l : List α) :
    (batches bs l).flatten = l :=
  batchesGo_flatten bs h1 l.length l (Nat.le_refl _)

/-- Every batch slice has at most `bs` elements. -/
theorem batchesGo_length_le {α : Type} (bs : Nat) :
    ∀ (fuel : Nat) (l : List α) (b : List α), b ∈ batchesGo bs fuel l →
      b.length ≤ bs := by
  intro fuel
  induction fuel with
  | zero =>
    intro l b hb
    cases l <;> simp [batchesGo] at hb
  | succ n ih =>
    intro l b hb
    match l with
    | [] => simp [batchesGo] at hb
    | a :: t =>
      simp only [batchesGo, List.mem_cons] at hb
      rcases hb with rfl | hb
      · exact (List.length_take_le _ _).trans (Nat.le_refl _)
      · exact ih (t.drop (bs - 1)) b hb

/-- With no store failure, the upsert loop upserts every batch in order:
it returns the accumulated count plus the total number of records, and
appends all records, batch after batch, to the index. -/
theorem upsertLoop_none (ns : String) :
    ∀ (bs : List (List PineconeVector)) (total k : Nat) (st : StoreState),
      upsertLoop none ns total k st bs =
        (.ok (total + bs.flatten.length),
         st ++ bs.flatten.map (fun v => (ns, v))) := by
  intro bs
  induction bs with
  | nil => intro total k st; simp [upsertLoop]
  | cons b rest ih =>
    intro total k st
    simp only [upsertLoop, reduceCtorEq, if_false]
    rw [ih]
    simp [List.append_assoc, Nat.add_assoc]

/-- When the `k`-th upsert call fails (counting from the current call
index `j`), the loop stops with the store's error: the batches before the
failing one are kept in the index, the failing and later batches are
never applied. -/
theorem upsertLoop_fail (ns : String) (k : Nat) :
    ∀ (bs : List (List PineconeVector)) (j total : Nat) (st : StoreState),
      j ≤ k → k < j + bs.length →
      upsertLoop (some k) ns total j st bs =
        (.error ("upsert failed"),
         st ++ (bs.take (k - j)).flatten.map (fun v => (ns, v))) := by
  intro bs
  induction bs with
  | nil => intro j total st hjk hk; simp at hk; omega
  | cons b rest ih =>
    intro j total st hjk hk
    by_cases hj : k = j
    · subst hj
      simp [upsertLoop, Nat.sub_self]
    · have hj1 : j + 1 ≤ k := by omega
      have hk1 : k < (j + 1) + rest.length := by
        simp only [List.length_cons] at hk; omega
      simp only [upsertLoop]
      rw [if_neg (by simp [Option.some_inj]; omega)]
      rw [ih (j + 1) (total + b.length) (st ++ b.map (fun v => (ns, v))) hj1 hk1]
      have : k - j = (k - (j + 1)) + 1 := by omega
      rw [this, List.take_succ_cons, List.flatten_cons, List.map_append,
        List.append_assoc]

/-- Every record in the index after the upsert loop was either already
there or is one of the loop's own records, tagged with its namespace. -/
theorem upsertLoop_state (failAt : Option Nat) (ns : String) :
    ∀ (bs : List (List PineconeVector)) (total k : Nat) (st : StoreState),
      ∃ new, (upsertLoop failAt ns total k st bs).2 = st ++ new ∧
        ∀ p ∈ new, p.1 = ns ∧ p.2 ∈ bs.flatten := by
  intro bs
  induction bs with
  | nil =>
    intro total k st
    exact ⟨[], by simp [upsertLoop], by simp⟩
  | cons b rest ih =>
    intro total k st
    by_cases hf : failAt = some k
    · refine ⟨[], ?_, by simp⟩
      simp [upsertLoop, hf]
    · obtain ⟨new, hst, hnew⟩ :=
        ih (total + b.length) (k + 1) (st ++ b.map (fun v => (ns, v)))
      refine ⟨b.map (fun v => (ns, v)) ++ new, ?_, ?_⟩
      · simp only [upsertLoop, hf, if_false]
        rw [hst, List.append_assoc]
      · intro p hp
        rcases List.mem_append.mp hp with hp | hp
        · obtain ⟨v, hv, rfl⟩ := List.mem_map.mp hp
          exact ⟨rfl, by simp [hv]⟩
        · obtain ⟨h1, h2⟩ := hnew p hp
          exact ⟨h1, by simp [h2]⟩

/-- Metadata of every document the ingestion loop builds: the tenant and
document ids of the request, the shared chunk total, and a chunk index in
`[idx, idx + number of remaining chunks)`. -/
theorem buildDocs_mem (req : RagStoreRequest) (timestamp : String) (total : Nat) :
    ∀ (cs : List String) (idx : Nat) (d : PipelineDoc),
      d ∈ buildDocs req timestamp total idx cs →
      d.meta.user_id = req.userId ∧ d.meta.email_id = req.email ∧
      d.meta.total_chunks = total ∧
      idx ≤ d.meta.chunk_index ∧ d.meta.chunk_index < idx + cs.length := by
  intro cs
  induction cs with
  | nil => intro idx d hd; simp [buildDocs] at hd
  | cons c rest ih =>
    intro idx d hd
    simp only [buildDocs, List.mem_cons] at hd
    rcases hd with rfl | hd
    · refine ⟨rfl, rfl, rfl, Nat.le_refl _, ?_⟩
      simp [chunkMeta]
    · obtain ⟨h1, h2, h3, h4, h5⟩ := ih (idx + 1) d hd
      refine ⟨h1, h2, h3, by omega, ?_⟩
      simp only [List.length_cons]
      omega

/-- Every node inherits the metadata of one of the documents it was
re-split from. -/
theorem get_nodes_mem (resplit : String → List String) (mkId : String → String)
    (docs : List PipelineDoc) (n : PipelineNode)
    (hn : n ∈ get_nodes_from_documents resplit mkId docs) :
    ∃ d ∈ docs, n.meta = d.meta := by
  simp only [get_nodes_from_documents] at hn
  obtain ⟨l, hl, hnl⟩ := List.mem_flatten.mp hn
  obtain ⟨d, hd, rfl⟩ := List.mem_map.mp hl
  obtain ⟨t, _, rfl⟩ := List.mem_map.mp hnl
  exact ⟨d, hd, rfl⟩

/-- Index-state decomposition of one ingestion call: the state after
`store_rag_data` is the old state followed by the new records, and every
new record is tagged with the namespace `user_<userId>_<email>`, carries
the request's tenant id and document id in its metadata, and has a chunk
index below the shared chunk total `len(split content)`. -/
theorem store_rag_data_state (split resplit : String → List String)
    (mkId : String → String) (embedMany : List String → List (List ℚ))
    (failAt : Option Nat) (timestamp : String) (req : RagStoreRequest)
    (st : StoreState) :
    ∃ new,
      (store_rag_data split resplit mkId embedMany failAt timestamp req st).2.1
        = st ++ new ∧
      ∀ p ∈ new,
        p.1 = storeNamespace req.userId req.email ∧
        p.2.metadata.user_id = req.userId ∧
        p.2.metadata.email_id = req.email ∧
        p.2.metadata.total_chunks = (split req.content).length ∧
        p.2.metadata.chunk_index < (split req.content).length := by
  by_cases hblank : req.content = "" ∨ pyStrip req.content = ""
  · refine ⟨[], ?_, by simp⟩
    simp [store_rag_data, hblank]
  · simp only [store_rag_data, hblank, if_false]
    set chunks := split req.content with hchunks
    set docs := buildDocs req timestamp chunks.length 0 chunks with hdocs
    set nodes := get_nodes_from_documents resplit mkId docs with hnodes
    set vectors := (nodes.zip (embedMany (nodes.map (fun n => n.text)))).map
      (toPineconeVector req.userId req.email req.title) with hvectors
    have hvec : ∀ v ∈ vectors,
        v.metadata.user_id = req.userId ∧ v.metadata.email_id = req.email ∧
        v.metadata.total_chunks = chunks.length ∧
        v.metadata.chunk_index < chunks.length := by
      intro v hv
      obtain ⟨pe, hpe, rfl⟩ := List.mem_map.mp hv
      have hn : pe.1 ∈ nodes := (List.of_mem_zip hpe).1
      obtain ⟨d, hd, hmeta⟩ := get_nodes_mem resplit mkId docs pe.1 hn
      obtain ⟨_, _, h3, _, h5⟩ :=
        buildDocs_mem req timestamp chunks.length chunks 0 d hd
      refine ⟨rfl, rfl, ?_, ?_⟩
      · show pe.1.meta.total_chunks = chunks.length
        rw [hmeta]; exact h3
      · show pe.1.meta.chunk_index < chunks.length
        rw [hmeta]; simpa using h5
    obtain ⟨new, hst, hnew⟩ :=
      upsertLoop_state failAt (storeNamespace req.userId req.email)
        (batches 100 vectors) 0 0 st
    have hflat : (batches 100 vectors).flatten = vectors :=
      batches_flatten 100 (by omega) vectors
    refine ⟨new, ?_, ?_⟩
    · rcases hres : upsert_vectors failAt vectors
          (storeNamespace req.userId req.email) 100 st with ⟨r, st2⟩
      have hst2 : st2 = st ++ new := by
        have := hst
        rw [show upsertLoop failAt (storeNamespace req.userId req.email) 0 0 st
              (batches 100 vectors)
            = upsert_vectors failAt vectors (storeNamespace req.userId req.email) 100 st
          from rfl, hres] at this
        exact this
      cases r with
      | ok cnt => simp [store_documents, hres, hst2]
      | error e => simp [store_documents, hres, hst2]
    · intro p hp
      obtain ⟨h1, h2⟩ := hnew p hp
      rw [hflat] at h2
      obtain ⟨hu, he, ht, hc⟩ := hvec p.2 h2
      exact ⟨h1, hu, he, ht, hc⟩

/-- Every match the modelled store query returns comes from a stored
record of the queried namespace that passes the metadata filter, and
copies that record's id and metadata. -/
theorem query_model_mem (f : PineconeVector → ℚ) (st : StoreState)
    (ns : String) (fu fe : Option String) (topK : Nat) (m : QueryMatch)
    (hm : m ∈ query_model f st ns fu fe topK) :
    ∃ p ∈ st, p.1 = ns ∧ matchesFilter p.2.metadata fu fe = true ∧
      m = { id := p.2.id, score := f p.2, metadata := p.2.metadata } := by
  simp only [query_model] at hm
  have hm2 := List.mem_of_mem_take hm
  rw [(List.perm_insertionSort _ _).mem_iff] at hm2
  obtain ⟨p, hp, rfl⟩ := List.mem_map.mp hm2
  have hpin := List.mem_of_mem_filter hp
  have hpf := List.of_mem_filter hp
  rw [Bool.and_eq_true] at hpf
  exact ⟨p, hpin, eq_of_beq hpf.1, hpf.2, rfl⟩

/-- A match under a `user_id` metadata filter carries that user id. -/
theorem query_model_user_id (f : PineconeVector → ℚ) (st : StoreState)
    (ns : String) (uid : String) (fe : Option String) (topK : Nat)
    (m : QueryMatch) (hm : m ∈ query_model f st ns (some uid) fe topK) :
    m.metadata.user_id = uid := by
  obtain ⟨p, _, _, hf, rfl⟩ := query_model_mem f st ns (some uid) fe topK m hm
  simp only [matchesFilter, Bool.and_eq_true] at hf
  exact eq_of_beq hf.1

/-! ## Claim theorems -/

/-- C2 (counterexample): not every operation that derives a namespace from
the same `(ownerId, documentId)` pair yields the identical string.
`store_documents` stores the pair `(u, d)` under `user_u_d`, but
`search_documents` queries under `user_u`: the two differ, and a record
stored by the store path is invisible to `search_documents` even though
it passes the metadata filter for the same pair. -/
theorem search_documents_namespace_differs :
    searchNamespace ("u") ≠ storeNamespace ("u") ("d") ∧
    storeNamespace ("u") ("d") = "user_u_d" ∧
    searchNamespace ("u") = "user_u" ∧
    search_documents scoreOne [(storeNamespace ("u") ("d"), vFix)]
      ("u") 10 (some ("d")) = [] ∧
    matchesFilter vFix.metadata (some ("u")) (some ("d")) = true := by
  decide

/-- C2 (amended): namespace derivation on the store path
(`store_documents`, `pinecone_service.py:389`) and on the live query path
(`retrieve_rag_data`, `rag_agent.py:174`) is the same pure function of
the `(ownerId, documentId)` pair, `user_<ownerId>_<documentId>`, with no
randomness or hidden state; `search_documents`
(`pinecone_service.py:465`) instead derives the tenant-wide `user_<ownerId>`,
omitting the document id. -/
theorem namespace_derivation_consistent_on_router_paths (u d : String) :
    storeNamespace u d = retrieveNamespace u d ∧
    storeNamespace u d = "user_" ++ u ++ "_" ++ d ∧
    searchNamespace u = "user_" ++ u :=
  ⟨rfl, rfl, rfl⟩

/-- C3: the namespace derivation is not injective: the distinct pairs
`("a_b", "c")` and `("a", "b_c")` both map to `user_a_b_c`, so namespace
scoping alone does not separate these tenants; the metadata filter is
what keeps them apart: tenant `a` querying with both layers active gets
nothing back from a record tenant `a_b` stored in the colliding
namespace. -/
theorem namespace_collision_exists_and_filter_separates :
    storeNamespace ("a_b") ("c") = "user_a_b_c" ∧
    storeNamespace ("a") ("b_c") = "user_a_b_c" ∧
    (("a_b", "c") : String × String) ≠ (("a", "b_c") : String × String) ∧
    query_model scoreOne [(storeNamespace ("a_b") ("c"), vColl)]
      (retrieveNamespace ("a") ("b_c")) (some ("a")) none 10 = [] := by
  decide

/-- C1 (counterexample): the namespace restriction does not, on its own,
exclude every record whose ownerId differs: tenant `a_b` stores document
`c` under `user_a_b_c`, which is exactly the namespace tenant `a` derives
for document `b_c`, so a namespace-only query (no metadata filter, as
`query_vectors` permits with `filter_metadata=None`) returns the foreign
record although its stored ownerId `a_b` differs from the querying
tenant `a`. -/
theorem namespace_layer_alone_admits_foreign_record :
    retrieveNamespace ("a") ("b_c") = storeNamespace ("a_b") ("c") ∧
    query_model scoreOne [(storeNamespace ("a_b") ("c"), vColl)]
      (retrieveNamespace ("a") ("b_c")) none none 10
      = [{ id := vColl.id, score := 1, metadata := vColl.metadata }] ∧
    vColl.metadata.user_id ≠ ("a") := by
  decide

/-- C10: the three singleton getters (`get_embedding_service`,
`get_pinecone_service`, `get_llm_service`) perform an unguarded
`if _instance is None: _instance = Ctor()` on a module global, with no
mutex or equivalent exclusive-initialization primitive in their modules.
Under the interleaving in which both threads run their `None`-check
before either assigns, both construct: two instances are created, so the
check-and-create step does not ensure at-most-one instance per process.
Sequential execution of the two calls constructs exactly one. -/
theorem unguarded_singleton_race_two_instances :
    (runRace raceStart [RaceAction.check1, RaceAction.check2,
      RaceAction.create1, RaceAction.create2]).created = 2 ∧
    (runRace raceStart [RaceAction.check1, RaceAction.create1,
      RaceAction.check2, RaceAction.create2]).created = 1 := by
  decide

/-- With no store failure, `store_documents` upserts one vector per
(node, embedding) pair and reports the namespace
`user_<user_id>_<email_id>`. -/
theorem store_documents_none (nodes : List PipelineNode)
    (embeddings : List (List ℚ)) (u e t : String) (st : StoreState) :
    store_documents none nodes embeddings u e t st
      = (.ok (((nodes.zip embeddings).map (toPineconeVector u e t)).length,
              storeNamespace u e),
         st ++ ((nodes.zip embeddings).map (toPineconeVector u e t)).map
           (fun v => (storeNamespace u e, v))) := by
  simp only [store_documents, upsert_vectors]
  rw [upsertLoop_none, batches_flatten 100 (by omega)]
  simp

/-- The `context_chunks` list preserves the match scores and length, so
its average is the average of the match scores. -/
theorem averageScore_contextChunks (ms : List QueryMatch) (h : ms ≠ []) :
    averageScore (contextChunks ms)
      = (ms.map QueryMatch.score).sum / (ms.length : ℚ) := by
  have hne : contextChunks ms ≠ [] := by
    simp only [contextChunks, ne_eq, List.map_eq_nil_iff]
    exact h
  rw [averageScore, if_neg hne]
  congr 1
  · rw [contextChunks, List.map_map]
    rfl
  · simp [contextChunks]

/-- C5: fail-fast validation: an empty or whitespace-only `content`
(store) or `query` (query) is rejected with the 400 client error at the
handler's entry, before any external capability call — the trace of
external calls is empty (no chunking, embedding, store or generation
call) and the index state is unchanged (no partial side effect). -/
theorem blank_input_fails_fast_no_calls
    (split resplit : String → List String) (mkId : String → String)
    (embedMany : List String → List (List ℚ)) (failAt : Option Nat)
    (timestamp : String) (req : RagStoreRequest) (st : StoreState)
    (embedOne : String → List ℚ) (sim : List ℚ → PineconeVector → ℚ)
    (generate : String → List ContextChunk → LLMResponse)
    (rreq : RagRetrieveRequest)
    (hc : pyStrip req.content = "") (hq : pyStrip rreq.query = "") :
    store_rag_data split resplit mkId embedMany failAt timestamp req st
      = (.error (400, "Content cannot be empty"), st, []) ∧
    retrieve_rag_data embedOne sim generate rreq st
      = (.error (400, "Query cannot be empty"), []) := by
  constructor
  · simp only [store_rag_data]
    rw [if_pos (Or.inr hc)]
  · simp only [retrieve_rag_data]
    rw [if_pos (Or.inr hq)]

/-- Witness for C5 at the whitespace-only content `"  "` and the empty
query. -/
theorem blank_input_fails_fast_no_calls_witness :
    store_rag_data splitWhole splitWhole idOfText embedConst none ("ts")
      { userId := "u", email := "d", title := "t", content := "  " } []
      = (.error (400, "Content cannot be empty"), [], []) ∧
    retrieve_rag_data embedOne1 simOne genFix
      { userId := "u", email := "d", query := "", topK := 10 } []
      = (.error (400, "Query cannot be empty"), []) :=
  blank_input_fails_fast_no_calls splitWhole splitWhole idOfText embedConst
    none ("ts") { userId := "u", email := "d", title := "t", content := "  " }
    [] embedOne1 simOne genFix
    { userId := "u", email := "d", query := "", topK := 10 }
    (by decide) (by decide)

/-- C4 (counterexample): an empty tenant id and an empty document id are
not validated: the store handler with `userId = ""` and `email = ""`
returns success (no `InvalidInputError`) and performs external calls (a
non-empty call trace), and likewise the query handler with empty ids
proceeds to the embedding and store-query calls. -/
theorem empty_ids_pass_validation :
    (store_rag_data splitWhole splitWhole idOfText embedConst none ("ts")
      { userId := "", email := "", title := "t", content := "hello" } []).1
      = .ok { documentId := "", indexed := true } ∧
    (store_rag_data splitWhole splitWhole idOfText embedConst none ("ts")
      { userId := "", email := "", title := "t", content := "hello" } []).2.2
      ≠ [] ∧
    (retrieve_rag_data embedOne1 simOne genFix
      { userId := "", email := "", query := "hi", topK := 10 } []).1
      = .ok { answer := noInfoAnswer, score := 0 } ∧
    (retrieve_rag_data embedOne1 simOne genFix
      { userId := "", email := "", query := "hi", topK := 10 } []).2
      ≠ [] := by
  decide

/-- C4 (amended): empty or whitespace-only content and query are rejected
with the 400 client error before any external call, but an empty tenant
id or document id raises no error at all: with any ids — the empty
string included — a store call with non-blank content succeeds and makes
external calls, and a query call with non-blank query text proceeds to
its external calls and returns a non-error result. -/
theorem validation_rejects_blank_text_not_empty_ids
    (split resplit : String → List String) (mkId : String → String)
    (embedMany : List String → List (List ℚ)) (failAt : Option Nat)
    (timestamp : String) (req : RagStoreRequest) (st : StoreState)
    (embedOne : String → List ℚ) (sim : List ℚ → PineconeVector → ℚ)
    (generate : String → List ContextChunk → LLMResponse)
    (rreq : RagRetrieveRequest) (req2 : RagStoreRequest)
    (rreq2 : RagRetrieveRequest)
    (hc : pyStrip req.content = "") (hq : pyStrip rreq.query = "")
    (h2 : pyStrip req2.content ≠ "") (h3 : pyStrip rreq2.query ≠ "") :
    (store_rag_data split resplit mkId embedMany failAt timestamp req st).1
      = .error (400, "Content cannot be empty") ∧
    (retrieve_rag_data embedOne sim generate rreq st).1
      = .error (400, "Query cannot be empty") ∧
    (store_rag_data split resplit mkId embedMany none timestamp req2 st).1
      = .ok { documentId := req2.email, indexed := true } ∧
    (store_rag_data split resplit mkId embedMany none timestamp req2 st).2.2
      ≠ [] ∧
    (retrieve_rag_data embedOne sim generate rreq2 st).1.toOption ≠ none ∧
    (retrieve_rag_data embedOne sim generate rreq2 st).2 ≠ [] := by
  have hcond2 : ¬(req2.content = "" ∨ pyStrip req2.content = "") := by
    rw [blank_or_iff]; exact h2
  have hcond3 : ¬(rreq2.query = "" ∨ pyStrip rreq2.query = "") := by
    rw [blank_or_iff]; exact h3
  refine ⟨?_, ?_, ?_, ?_, ?_, ?_⟩
  · simp only [store_rag_data]
    rw [if_pos (Or.inr hc)]
  · simp only [retrieve_rag_data]
    rw [if_pos (Or.inr hq)]
  · simp only [store_rag_data]
    rw [if_neg hcond2, store_documents_none]
  · simp only [store_rag_data]
    rw [if_neg hcond2, store_documents_none]
    simp
  · simp only [retrieve_rag_data]
    rw [if_neg hcond3]
    by_cases hres : retrieveMatches sim embedOne st rreq2 = [] <;>
      simp [hres, Except.toOption]
  · simp only [retrieve_rag_data]
    rw [if_neg hcond3]
    by_cases hres : retrieveMatches sim embedOne st rreq2 = [] <;>
      simp [hres]

/-- Witness for C4's amended claim: blank content and query at `"  "` and
`""`; empty tenant and document ids with valid content `"hello"` and
query `"hi"`. -/
theorem validation_rejects_blank_text_not_empty_ids_witness :
    (store_rag_data splitWhole splitWhole idOfText embedConst none ("ts")
      { userId := "u", email := "d", title := "t", content := "  " } []).1
      = .error (400, "Content cannot be empty") ∧
    (retrieve_rag_data embedOne1 simOne genFix
      { userId := "u", email := "d", query := "", topK := 10 } []).1
      = .error (400, "Query cannot be empty") ∧
    (store_rag_data splitWhole splitWhole idOfText embedConst none ("ts")
      { userId := "", email := "", title := "t", content := "hello" } []).1
      = .ok { documentId := "", indexed := true } ∧
    (store_rag_data splitWhole splitWhole idOfText embedConst none ("ts")
      { userId := "", email := "", title := "t", content := "hello" } []).2.2
      ≠ [] ∧
    (retrieve_rag_data embedOne1 simOne genFix
      { userId := "", email := "", query := "hi", topK := 10 } []).1.toOption
      ≠ none ∧
    (retrieve_rag_data embedOne1 simOne genFix
      { userId := "", email := "", query := "hi", topK := 10 } []).2
      ≠ [] :=
  validation_rejects_blank_text_not_empty_ids splitWhole splitWhole idOfText
    embedConst none ("ts")
    { userId := "u", email := "d", title := "t", content := "  " } []
    embedOne1 simOne genFix
    { userId := "u", email := "d", query := "", topK := 10 }
    { userId := "", email := "", title := "t", content := "hello" }
    { userId := "", email := "", query := "hi", topK := 10 }
    (by decide) (by decide) (by decide) (by decide)

/-- C7: whenever the vector-store query returns zero matches (for
example an empty or nonexistent namespace), the query handler returns
the canned no-relevant-information answer with score 0.0 as a
successful result, not an error, and the generation capability is never
called: the trace stops after the embedding and store-query calls. -/
theorem empty_results_return_canned_answer
    (embedOne : String → List ℚ) (sim : List ℚ → PineconeVector → ℚ)
    (generate : String → List ContextChunk → LLMResponse)
    (rreq : RagRetrieveRequest) (st : StoreState)
    (hq : pyStrip rreq.query ≠ "")
    (hres : retrieveMatches sim embedOne st rreq = []) :
    retrieve_rag_data embedOne sim generate rreq st
      = (.ok { answer := noInfoAnswer, score := 0 },
         [ExtCall.embedOne rreq.query,
          ExtCall.storeQuery (retrieveNamespace rreq.userId rreq.email)
            (some rreq.userId) rreq.topK]) := by
  have hcond : ¬(rreq.query = "" ∨ pyStrip rreq.query = "") := by
    rw [blank_or_iff]; exact hq
  simp only [retrieve_rag_data]
  rw [if_neg hcond]
  simp [hres]

/-- Witness for C7: a query against the empty index. -/
theorem empty_results_return_canned_answer_witness :
    retrieve_rag_data embedOne1 simOne genFix
      { userId := "u", email := "d", query := "hi", topK := 10 } []
      = (.ok { answer := noInfoAnswer, score := 0 },
         [ExtCall.embedOne ("hi"),
          ExtCall.storeQuery (retrieveNamespace ("u") ("d")) (some ("u")) 10]) :=
  empty_results_return_canned_answer embedOne1 simOne genFix
    { userId := "u", email := "d", query := "hi", topK := 10 } []
    (by decide) (by decide)

/-- C8: the upsert operation processes its records in consecutive
batches of at most 100, in order: with no failure it upserts them all
and returns their count; if the `k`-th batch call fails, the batches
before it stay upserted (no rollback) and the later batches are never
applied, with the store's error surfaced. -/
theorem upsert_batches_in_order_no_rollback
    (vectors : List PineconeVector) (ns : String) (st : StoreState) (k : Nat)
    (hk : k < (batches 100 vectors).length) :
    upsert_vectors none vectors ns 100 st
      = (.ok vectors.length, st ++ vectors.map (fun v => (ns, v))) ∧
    upsert_vectors (some k) vectors ns 100 st
      = (.error ("upsert failed"),
         st ++ ((batches 100 vectors).take k).flatten.map (fun v => (ns, v))) ∧
    (batches 100 vectors).flatten = vectors ∧
    (batches 100 vectors).all (fun b => decide (b.length ≤ 100)) = true := by
  have hflat := batches_flatten 100 (by omega) vectors
  refine ⟨?_, ?_, hflat, ?_⟩
  · rw [upsert_vectors, upsertLoop_none, hflat]
    simp
  · rw [upsert_vectors,
      upsertLoop_fail ns k (batches 100 vectors) 0 0 st (Nat.zero_le k)
        (by simpa using hk)]
    simp
  · rw [List.all_eq_true]
    intro b hb
    simpa using batchesGo_length_le 100 vectors.length vectors b hb

/-- Witness for C8: one record, with the store failing at its first
batch call. -/
theorem upsert_batches_in_order_no_rollback_witness :
    upsert_vectors none [vFix] ("n") 100 []
      = (.ok 1, [(("n" : String), vFix)]) ∧
    upsert_vectors (some 0) [vFix] ("n") 100 []
      = (.error ("upsert failed"), []) ∧
    (batches 100 [vFix]).flatten = [vFix] ∧
    (batches 100 [vFix]).all (fun b => decide (b.length ≤ 100)) = true := by
  have h := upsert_batches_in_order_no_rollback [vFix] ("n") [] 0 (by decide)
  simpa using h

/-- C6: for every non-empty match list, the score the query handler
returns is the arithmetic mean of the matches' scores rounded to 4
decimal places (Python `round`, ties to even, over the rational model of
the float arithmetic); in particular the mean of the scores
`[0.9, 0.7, 0.5]` rounds to `0.7`. -/
theorem aggregate_score_is_rounded_mean
    (embedOne : String → List ℚ) (sim : List ℚ → PineconeVector → ℚ)
    (generate : String → List ContextChunk → LLMResponse)
    (rreq : RagRetrieveRequest) (st : StoreState)
    (hq : pyStrip rreq.query ≠ "")
    (hres : retrieveMatches sim embedOne st rreq ≠ []) :
    ((retrieve_rag_data embedOne sim generate rreq st).1.toOption.map
        RagRetrieveResponse.score)
      = some (pyRound4
          (((retrieveMatches sim embedOne st rreq).map QueryMatch.score).sum /
            ((retrieveMatches sim embedOne st rreq).length : ℚ))) ∧
    pyRound4 (averageScore
      [chunkOfScore (9/10), chunkOfScore (7/10), chunkOfScore (5/10)])
      = 7/10 := by
  constructor
  · have hcond : ¬(rreq.query = "" ∨ pyStrip rreq.query = "") := by
      rw [blank_or_iff]; exact hq
    simp only [retrieve_rag_data]
    rw [if_neg hcond, if_neg hres]
    simp [Except.toOption, averageScore_contextChunks _ hres]
  · have h1 : averageScore
        [chunkOfScore (9/10), chunkOfScore (7/10), chunkOfScore (5/10)]
        = 7/10 := by
      rw [averageScore, if_neg (by simp)]
      norm_num [chunkOfScore]
    rw [h1, pyRound4]
    have h2 : roundHalfToEven ((7/10 : ℚ) * 10000) = 7000 := by
      norm_num [roundHalfToEven]
    rw [h2]
    norm_num

/-- Witness for C6: one stored record with score 1 under the queried
namespace. -/
theorem aggregate_score_is_rounded_mean_witness :
    ((retrieve_rag_data embedOne1 simOne genFix
        { userId := "u", email := "d", query := "hi", topK := 10 }
        [(storeNamespace ("u") ("d"), vFix)]).1.toOption.map
        RagRetrieveResponse.score)
      = some (pyRound4
          (((retrieveMatches simOne embedOne1
              [(storeNamespace ("u") ("d"), vFix)]
              { userId := "u", email := "d", query := "hi", topK := 10 }).map
                QueryMatch.score).sum /
            ((retrieveMatches simOne embedOne1
              [(storeNamespace ("u") ("d"), vFix)]
              { userId := "u", email := "d", query := "hi", topK := 10 }).length
              : ℚ))) ∧
    pyRound4 (averageScore
      [chunkOfScore (9/10), chunkOfScore (7/10), chunkOfScore (5/10)])
      = 7/10 :=
  aggregate_score_is_rounded_mean embedOne1 simOne genFix
    { userId := "u", email := "d", query := "hi", topK := 10 }
    [(storeNamespace ("u") ("d"), vFix)]
    (by decide) (by decide)

/-- C9: every record one ingestion call stores satisfies the chunk
metadata invariant: its `chunk_index` is below its `total_chunks`, its
`total_chunks` equals the shared chunk count of that call
(`len(split(content))`), its metadata `user_id` equals the request's
tenant id, and the namespace it is stored under is exactly the one
derived from its own metadata's `(user_id, email_id)` pair — the second
isolation layer never drifts from the namespace. -/
theorem stored_chunk_metadata_invariant
    (split resplit : String → List String) (mkId : String → String)
    (embedMany : List String → List (List ℚ)) (failAt : Option Nat)
    (timestamp : String) (req : RagStoreRequest) (st : StoreState)
    (p : String × PineconeVector)
    (hp : p ∈ (store_rag_data split resplit mkId embedMany failAt
      timestamp req st).2.1) :
    p ∈ st ∨
      (p.2.metadata.chunk_index < p.2.metadata.total_chunks ∧
       p.2.metadata.total_chunks = (split req.content).length ∧
       p.2.metadata.user_id = req.userId ∧
       p.1 = storeNamespace p.2.metadata.user_id p.2.metadata.email_id) := by
  obtain ⟨new, hst, hnew⟩ :=
    store_rag_data_state split resplit mkId embedMany failAt timestamp req st
  rw [hst] at hp
  rcases List.mem_append.mp hp with h | h
  · exact Or.inl h
  · obtain ⟨h1, hu, he, ht, hc⟩ := hnew p h
    refine Or.inr ⟨?_, ht, hu, ?_⟩
    · rw [ht]
      exact hc
    · rw [hu, he]
      exact h1

/-- Witness for C9: the single record stored by ingesting the one-chunk
document `hello` for tenant `u`, document `d`. -/
theorem stored_chunk_metadata_invariant_witness :
    (("user_u_d", vFix) : String × PineconeVector) ∈ ([] : StoreState) ∨
      (vFix.metadata.chunk_index < vFix.metadata.total_chunks ∧
       vFix.metadata.total_chunks = (splitWhole reqFix.content).length ∧
       vFix.metadata.user_id = reqFix.userId ∧
       ("user_u_d" : String)
         = storeNamespace vFix.metadata.user_id vFix.metadata.email_id) :=
  stored_chunk_metadata_invariant splitWhole splitWhole idOfText embedConst
    none ("ts") reqFix [] (("user_u_d", vFix)) (by decide)

/-- C1 (amended): tenant isolation holds through the metadata filter:
after tenant A's ingestion, every match of a query issued with B's
`ownerId`/`documentId` (both layers active, any similarity function —
even one ranking A's content closest) carries B's ownerId in its
metadata, while every record stored by A's call carries A's ownerId, so
for distinct tenants no returned match is one of A's records. The
metadata filter excludes every differing-owner record on its own; the
namespace restriction also excludes them whenever the derived namespace
strings differ, which fails only for colliding pairs. -/
theorem tenant_isolation_via_metadata_filter
    (split resplit : String → List String) (mkId : String → String)
    (embedMany : List String → List (List ℚ)) (timestamp : String)
    (reqA : RagStoreRequest) (st : StoreState)
    (sim : List ℚ → PineconeVector → ℚ) (embedOne : String → List ℚ)
    (reqB : RagRetrieveRequest)
    (hAB : reqA.userId ≠ reqB.userId) :
    (retrieveMatches sim embedOne
        (stateAfterIngest split resplit mkId embedMany timestamp reqA st)
        reqB).all
      (fun m => m.metadata.user_id == reqB.userId) = true ∧
    ((stateAfterIngest split resplit mkId embedMany timestamp reqA st).drop
        st.length).all
      (fun p => p.2.metadata.user_id == reqA.userId) = true ∧
    (retrieveMatches sim embedOne
        (stateAfterIngest split resplit mkId embedMany timestamp reqA st)
        reqB).all
      (fun m =>
        (((stateAfterIngest split resplit mkId embedMany timestamp reqA
            st).drop st.length).all
          (fun p => !(m.metadata == p.2.metadata)))) = true := by
  obtain ⟨new, hst, hnew⟩ :=
    store_rag_data_state split resplit mkId embedMany none timestamp reqA st
  have hdrop : (stateAfterIngest split resplit mkId embedMany timestamp
      reqA st).drop st.length = new := by
    rw [stateAfterIngest, hst, List.drop_left]
  have hmatch : ∀ m ∈ retrieveMatches sim embedOne
      (stateAfterIngest split resplit mkId embedMany timestamp reqA st) reqB,
      m.metadata.user_id = reqB.userId := by
    intro m hm
    exact query_model_user_id (sim (embedOne reqB.query)) _
      (retrieveNamespace reqB.userId reqB.email) reqB.userId none reqB.topK m hm
  refine ⟨?_, ?_, ?_⟩
  · rw [List.all_eq_true]
    intro m hm
    simpa using hmatch m hm
  · rw [hdrop, List.all_eq_true]
    intro p hp
    simpa using (hnew p hp).2.1
  · rw [List.all_eq_true]
    intro m hm
    rw [hdrop, List.all_eq_true]
    intro p hp
    simp only [Bool.not_eq_eq_eq_not, Bool.not_true, beq_eq_false_iff_ne, ne_eq]
    intro hEq
    have hB := hmatch m hm
    rw [hEq] at hB
    exact hAB ((hnew p hp).2.1.symm.trans hB)

/-- Witness for C1: tenant `u` ingests `hello` under document `d`;
tenant `b` then queries with the same document id. -/
theorem tenant_isolation_via_metadata_filter_witness :
    (retrieveMatches simOne embedOne1
        (stateAfterIngest splitWhole splitWhole idOfText embedConst ("ts")
          reqFix [])
        { userId := "b", email := "d", query := "hi", topK := 10 }).all
      (fun m => m.metadata.user_id == ("b" : String)) = true ∧
    ((stateAfterIngest splitWhole splitWhole idOfText embedConst ("ts")
        reqFix []).drop ([] : StoreState).length).all
      (fun p => p.2.metadata.user_id == ("u" : String)) = true ∧
    (retrieveMatches simOne embedOne1
        (stateAfterIngest splitWhole splitWhole idOfText embedConst ("ts")
          reqFix [])
        { userId := "b", email := "d", query := "hi", topK := 10 }).all
      (fun m =>
        (((stateAfterIngest splitWhole splitWhole idOfText embedConst ("ts")
            reqFix []).drop ([] : StoreState).length).all
          (fun p => !(m.metadata == p.2.metadata)))) = true :=
  tenant_isolation_via_metadata_filter splitWhole splitWhole idOfText
    embedConst ("ts") reqFix [] simOne embedOne1
    { userId := "b", email := "d", query := "hi", topK := 10 }
    (by decide)
